import Mathlib

/-!
Shallow embedding of the rsmq-async queue engine (src/functions.rs) and proofs
about its observable behavior.

Modelling conventions:
* Machine integers are `Nat` / `Int` with explicit bounds (`U64MAX`, `I64MAX`);
  `std::time::Duration` values are represented by their `as_millis()` value as
  a `Nat`.
* Redis hashes are association lists `List (String × String)` (Redis values
  are binary-safe strings; payloads are modelled as `String`), sorted sets are
  `List (String × Nat)` (member, score), the queue-registry set is a
  `List String`.
* The thread-local random generator of `make_id` is modelled as an oracle
  `rnd : Nat → Char` giving the successive random draws.
* Transport-level Redis errors are out of scope; the `RedisError` variant only
  appears where the code itself converts a reply (e.g. `HINCRBY` on a
  non-numeric field).
-/

set_option autoImplicit false

namespace Rsmq

/-- `u64::MAX`. -/
def U64MAX : Nat := 2 ^ 64 - 1

/-- `i64::MAX`. -/
def I64MAX : Int := 2 ^ 63 - 1

/-- `i64::MIN`. -/
def I64MIN : Int := -(2 ^ 63)

/-- `static JS_COMPAT_MAX_TIME_MILLIS: u64 = 9_999_999_000;` -/
def JS_COMPAT_MAX_TIME_MILLIS : Nat := 9999999000

/-- The error enum of `src/error.rs` (transport-only variants collapsed;
`CannotDecodeMessage` carries the raw payload, modelled as a string). -/
inductive RsmqError where
  | NoConnectionAcquired
  | NoAttributeSupplied
  | MissingParameter (p : String)
  | InvalidFormat (s : String)
  | InvalidValue (value mn mx : String)
  | MessageNotString
  | MessageTooLong
  | QueueNotFound
  | QueueExists
  | BugCreatingRandonValue
  | CannotParseVT
  | CannotParseDelay
  | CannotParseMaxsize
  | CannotDecodeMessage (raw : String)
  | RedisError
  deriving Repr, DecidableEq

/-- `u64::try_from` on an unbounded natural. -/
def u64_try_from (n : Nat) : Option Nat :=
  if n ≤ U64MAX then some n else none

/-- `fn number_in_range<T>(value, min, max)` instantiated at `u64`.
The error carries the `format!` images of the three numbers. -/
def number_in_range_u64 (value mn mx : Nat) : Except RsmqError Unit :=
  if mn ≤ value ∧ value ≤ mx then Except.ok ()
  else Except.error (RsmqError.InvalidValue (toString value) (toString mn) (toString mx))

/-- `fn number_in_range<T>(value, min, max)` instantiated at a signed type. -/
def number_in_range_i64 (value mn mx : Int) : Except RsmqError Unit :=
  if mn ≤ value ∧ value ≤ mx then Except.ok ()
  else Except.error (RsmqError.InvalidValue (toString value) (toString mn) (toString mx))

/-- `fn get_redis_duration(d: Option<Duration>, default: &Duration) -> u64`:
`d.map(as_millis).map(u64::try_from).and_then(Result::ok)` falls back to
`u64::try_from(default.as_millis()).ok().unwrap_or(30_000)`. -/
def get_redis_duration (d : Option Nat) (dflt : Nat) : Nat :=
  (d.bind u64_try_from).getD ((u64_try_from dflt).getD 30000)

/-- `c.is_ascii_alphanumeric()`. -/
def is_ascii_alphanumeric (c : Char) : Bool :=
  (65 ≤ c.toNat && c.toNat ≤ 90) || (97 ≤ c.toNat && c.toNat ≤ 122)
    || (48 ≤ c.toNat && c.toNat ≤ 57)

/-- The per-character predicate of `valid_name_format`. -/
def name_char_allowed (c : Char) : Bool :=
  is_ascii_alphanumeric c || c == '-' || c == '_'

/-- `fn valid_name_format(name: &str)` exactly as written in the source:
the guard is `name.is_empty() && name.len() > 160` (a conjunction), and in the
`else` branch the result of the `chars().all(..)` scan is discarded. -/
def valid_name_format (name : String) : Except RsmqError Unit :=
  if name.isEmpty ∧ name.utf8ByteSize > 160 then
    Except.error (RsmqError.InvalidFormat name)
  else
    let _ := name.data.all name_char_allowed
    Except.ok ()

/-- One base-36 digit as produced by `radix_fmt::radix_36` (0-9 then a-z). -/
def radix36_digit (n : Nat) : Char :=
  if n < 10 then Char.ofNat (48 + n) else Char.ofNat (87 + n)

/-- Digit list of `radix_fmt::radix_36`, most significant first, no padding.
Structural recursion on a fuel argument (the number itself bounds the digit
count, so the fuel never runs out on the quotient chain). -/
def radix36_chars_aux : Nat → Nat → List Char
  | 0, n => [radix36_digit (n % 36)]
  | fuel + 1, n =>
    if n < 36 then [radix36_digit n]
    else radix36_chars_aux fuel (n / 36) ++ [radix36_digit (n % 36)]

/-- Digit list of `radix_fmt::radix_36`. -/
def radix36_chars (n : Nat) : List Char :=
  radix36_chars_aux n n

/-- `radix_36(n).to_string()`. -/
def radix_36 (n : Nat) : String :=
  String.mk (radix36_chars n)

/-- The alphabet of `make_id`. -/
def ID_ALPHABET : List Char :=
  "ABCDEFGHIJKLMNOPQRSTUVWXYZabcdefghijklmnopqrstuvwxyz0123456789".data

/-- `fn make_id(len)` with the thread-local generator modelled as the oracle
`rnd`; the `BugCreatingRandonValue` branch is unreachable because the alphabet
is non-empty, so the model returns the string directly. -/
def make_id (len : Nat) (rnd : Nat → Char) : String :=
  String.mk ((List.range len).map rnd)

/-- ASCII decimal digit test. -/
def is_digit_char (c : Char) : Bool :=
  48 ≤ c.toNat && c.toNat ≤ 57

/-- Value of a decimal digit string. -/
def dec_value (l : List Char) : Nat :=
  l.foldl (fun a c => a * 10 + (c.toNat - 48)) 0

/-- `str::parse::<u64>` on the digit strings this library stores (the
`+`-prefix Rust also accepts never occurs in them). -/
def parse_u64 (s : String) : Option Nat :=
  if s.data.isEmpty then none
  else if s.data.all is_digit_char then
    if dec_value s.data ≤ U64MAX then some (dec_value s.data) else none
  else none

/-- `str::parse::<i64>`, with an optional leading minus sign. -/
def parse_i64 (s : String) : Option Int :=
  let core := fun (l : List Char) (sign : Int) =>
    if l.isEmpty then none
    else if l.all is_digit_char then
      let n : Int := sign * (dec_value l : Int)
      if I64MIN ≤ n ∧ n ≤ I64MAX then some n else none
    else none
  match s.data with
  | '-' :: rest => core rest (-1)
  | l => core l 1

/-- The value of one character for `u64::from_str_radix(_, 36)`
(case-insensitive). -/
def digit_val_36 (c : Char) : Option Nat :=
  if 48 ≤ c.toNat ∧ c.toNat ≤ 57 then some (c.toNat - 48)
  else if 97 ≤ c.toNat ∧ c.toNat ≤ 122 then some (c.toNat - 87)
  else if 65 ≤ c.toNat ∧ c.toNat ≤ 90 then some (c.toNat - 55)
  else none

/-- `u64::from_str_radix(s, 36)`: empty input, a non-digit, or overflow give
`none`. (The accumulator only grows, so one final range check is equivalent to
the step-by-step overflow check.) -/
def from_str_radix_36 (s : String) : Option Nat :=
  if s.isEmpty then none
  else
    (s.data.foldl
        (fun acc c => acc.bind (fun a => (digit_val_36 c).map (fun d => a * 36 + d)))
        (some 0)).bind
      (fun n => if n ≤ U64MAX then some n else none)

/-- `u64::from_str_radix(&id[0..10], 36).unwrap_or(0)`, the computation of the
`sent` field in `receive_message` and `pop_message` (ids are ASCII so the byte
slice `[0..10]` is the first ten characters). -/
def sent_of_id (id : String) : Nat :=
  (from_str_radix_36 (String.mk (id.data.take 10))).getD 0

/-! ### Redis primitives on the modelled state -/

/-- A Redis hash (`{NS}{qname}:Q`): field/value pairs, distinct fields. -/
abbrev Hash := List (String × String)

/-- A Redis sorted set (`{NS}{qname}`): member/score pairs, scores in ms. -/
abbrev Zset := List (String × Nat)

/-- `HGET`. -/
def hget (h : Hash) (f : String) : Option String :=
  (h.find? (fun p => p.fst == f)).map Prod.snd

/-- `HSETNX`: sets the field only when absent; replies whether it was set. -/
def hsetnx (h : Hash) (f v : String) : Hash × Bool :=
  if h.any (fun p => p.fst == f) then (h, false) else (h ++ [(f, v)], true)

/-- `HSET` (single field): overwrite or append. -/
def hset (h : Hash) (f v : String) : Hash :=
  if h.any (fun p => p.fst == f) then
    h.map (fun p => if p.fst == f then (f, v) else p)
  else h ++ [(f, v)]

/-- `HDEL` over a field list: the reply counts the fields that existed. -/
def hdel (h : Hash) (fs : List String) : Hash × Nat :=
  match fs with
  | [] => (h, 0)
  | f :: rest =>
    let existed := h.any (fun p => p.fst == f)
    let r := hdel (h.filter (fun p => p.fst != f)) rest
    (r.fst, (if existed then 1 else 0) + r.snd)

/-- `HINCRBY f incr`: an absent field counts as 0, a non-numeric field is a
Redis-level error. -/
def hincrby (h : Hash) (f : String) (incr : Int) : Option (Hash × Int) :=
  match hget h f with
  | none => some (hset h f (toString incr), incr)
  | some s =>
    match parse_i64 s with
    | none => none
    | some v => some (hset h f (toString (v + incr)), v + incr)

/-- `ZADD` (single member): update the score or insert the member. -/
def zadd (z : Zset) (m : String) (score : Nat) : Zset :=
  if z.any (fun p => p.fst == m) then
    z.map (fun p => if p.fst == m then (m, score) else p)
  else z ++ [(m, score)]

/-- `ZREM` (single member): the reply counts removed members. -/
def zrem (z : Zset) (m : String) : Zset × Nat :=
  (z.filter (fun p => p.fst != m), z.countP (fun p => p.fst == m))

/-- `ZCARD`. -/
def zcard (z : Zset) : Nat :=
  z.length

/-- `ZCOUNT z lo +inf`: members with score ≥ `lo`. -/
def zcount_ge (z : Zset) (lo : Nat) : Nat :=
  z.countP (fun p => lo ≤ p.snd)

/-- `SADD` on the registry set. -/
def sadd (s : List String) (x : String) : List String :=
  if s.contains x then s else s ++ [x]

/-! ### `get_queue` -/

/-- `struct QueueDescriptor` (`vt`/`delay` are `Duration`s, kept as their
millisecond counts). -/
structure QueueDescriptor where
  vt : Nat
  delay : Nat
  maxsize : Int
  ts : Nat
  uid : Option String
  deriving Repr, DecidableEq

/-- `RsmqFunctions::get_queue(conn, qname, uid)`: atomic pipeline of
`HMGET {NS}{qname}:Q vt delay maxsize` and `TIME`. `time` is the TIME reply
`(seconds, microseconds)`. Note the source computes
`time_millis = (result.1).0 * 1000` from the seconds alone. -/
def get_queue (conf : Hash) (time : Nat × Nat) (uid : Bool) (rnd : Nat → Char) :
    Except RsmqError QueueDescriptor :=
  let time_millis := time.fst * 1000
  match hget conf "vt", hget conf "delay", hget conf "maxsize" with
  | some hmget_first, some hmget_second, some hmget_third =>
    let quid := if uid then some (radix_36 time_millis ++ make_id 22 rnd) else none
    match parse_u64 hmget_first with
    | none => Except.error RsmqError.CannotParseVT
    | some vt =>
      match parse_u64 hmget_second with
      | none => Except.error RsmqError.CannotParseDelay
      | some delay =>
        match parse_i64 hmget_third with
        | none => Except.error RsmqError.CannotParseMaxsize
        | some maxsize =>
          Except.ok { vt := vt, delay := delay, maxsize := maxsize,
                      ts := time_millis, uid := quid }
  | _, _, _ => Except.error RsmqError.QueueNotFound

/-- A concrete queue-config hash as `create_queue` writes it with default
arguments (the three fields `get_queue` reads). -/
def confEx : Hash :=
  [("vt", "30000"), ("delay", "0"), ("maxsize", "65536")]

/-- A concrete queue-config hash with all seven fields `get_queue_attributes`
reads (one message sent, none received). -/
def confEx7 : Hash :=
  [("vt", "30000"), ("delay", "0"), ("maxsize", "65536"), ("totalrecv", "0"),
   ("totalsent", "1"), ("created", "2"), ("modified", "2")]

/-! ### `create_queue` -/

/-- The maxsize validation of `create_queue`/`set_queue_attributes`:
`number_in_range(maxsize, 1024, 65536)` whose error is suppressed exactly when
`maxsize == -1`. -/
def check_maxsize (maxsize : Int) : Except RsmqError Unit :=
  match number_in_range_i64 maxsize 1024 65536 with
  | Except.error e => if maxsize ≠ -1 then Except.error e else Except.ok ()
  | Except.ok _ => Except.ok ()

/-- Result of `create_queue` together with the state it leaves behind: on
`QueueExists` the `HSETNX` pipeline has already run (absent fields were
filled in) but the registry is untouched. -/
structure CreateQueueOutcome where
  conf : Hash
  registry : List String
  result : Except RsmqError Unit

/-- `RsmqFunctions::create_queue(conn, qname, hidden, delay, maxsize)` acting
on the queue's config hash and the `{NS}QUEUES` registry. `time` is the TIME
reply; the source stores `time.0` (seconds) in `created`/`modified`. -/
def create_queue (conf : Hash) (registry : List String) (qname : String)
    (hidden delay : Option Nat) (maxsize : Option Int) (time : Nat × Nat) :
    CreateQueueOutcome :=
  match valid_name_format qname with
  | Except.error e => ⟨conf, registry, Except.error e⟩
  | Except.ok _ =>
    let hidden := get_redis_duration hidden 30000
    let delay := get_redis_duration delay 0
    let maxsize := maxsize.getD 65536
    match number_in_range_u64 hidden 0 JS_COMPAT_MAX_TIME_MILLIS with
    | Except.error e => ⟨conf, registry, Except.error e⟩
    | Except.ok _ =>
    match number_in_range_u64 delay 0 JS_COMPAT_MAX_TIME_MILLIS with
    | Except.error e => ⟨conf, registry, Except.error e⟩
    | Except.ok _ =>
    match check_maxsize maxsize with
    | Except.error e => ⟨conf, registry, Except.error e⟩
    | Except.ok _ =>
      let p1 := hsetnx conf "vt" (toString hidden)
      let p2 := hsetnx p1.fst "delay" (toString delay)
      let p3 := hsetnx p2.fst "maxsize" (toString maxsize)
      let p4 := hsetnx p3.fst "created" (toString time.fst)
      let p5 := hsetnx p4.fst "modified" (toString time.fst)
      let p6 := hsetnx p5.fst "totalrecv" "0"
      let p7 := hsetnx p6.fst "totalsent" "0"
      if p1.snd = false then ⟨p7.fst, registry, Except.error RsmqError.QueueExists⟩
      else ⟨p7.fst, sadd registry qname, Except.ok ()⟩

/-! ### `delete_message` -/

/-- `RsmqFunctions::delete_message(conn, qname, id)`: atomic pipeline of
`ZREM {NS}{qname} id` and `HDEL {NS}{qname}:Q id {id}:rc {id}:fr`; returns the
updated hash, the updated index, and the boolean reply
`results.0 == 1 && results.1 > 0`. -/
def delete_message (conf : Hash) (index : Zset) (id : String) :
    Hash × Zset × Bool :=
  let zr := zrem index id
  let hd := hdel conf [id, id ++ ":rc", id ++ ":fr"]
  (hd.fst, zr.fst, zr.snd == 1 && hd.snd > 0)

/-! ### `get_queue_attributes` -/

/-- `struct RsmqQueueAttributes` (durations kept as millisecond counts). -/
structure RsmqQueueAttributes where
  vt : Nat
  delay : Nat
  maxsize : Int
  totalrecv : Nat
  totalsent : Nat
  created : Nat
  modified : Nat
  msgs : Nat
  hiddenmsgs : Nat
  deriving Repr, DecidableEq

/-- `HMGET` with each present reply converted to `i64` by the redis crate; a
present non-numeric value is a Redis-level conversion error. -/
def hmget_i64 (h : Hash) (fields : List String) : Except RsmqError (List (Option Int)) :=
  match fields with
  | [] => Except.ok []
  | f :: rest =>
    match hget h f with
    | none => (hmget_i64 h rest).map (fun l => none :: l)
    | some s =>
      match parse_i64 s with
      | none => Except.error RsmqError.RedisError
      | some v => (hmget_i64 h rest).map (fun l => some v :: l)

/-- `i64 -> u64` via `try_into()/try_from().unwrap_or(0)`. -/
def i64_to_u64_or_zero (v : Int) : Nat :=
  if 0 ≤ v then v.toNat else 0

/-- `RsmqFunctions::get_queue_attributes(conn, qname)`: `TIME`, then an atomic
pipeline of `HMGET` (seven fields) + `ZCARD {NS}{qname}` +
`ZCOUNT {NS}{qname} time.0 +inf`. Note the source passes `time.0`, the TIME
reply's *seconds*, as the ZCOUNT lower bound. -/
def get_queue_attributes (conf : Hash) (index : Zset) (time : Nat × Nat) :
    Except RsmqError RsmqQueueAttributes :=
  match hmget_i64 conf ["vt", "delay", "maxsize", "totalrecv", "totalsent", "created", "modified"] with
  | Except.error e => Except.error e
  | Except.ok vals =>
    let card := zcard index
    let hidden := zcount_ge index time.fst
    if vals.contains none then Except.error RsmqError.QueueNotFound
    else
      Except.ok {
        vt := match vals[0]? with
          | some (some v) => i64_to_u64_or_zero v
          | _ => 0
        delay := match vals[1]? with
          | some (some v) => i64_to_u64_or_zero v
          | _ => 0
        maxsize := (vals[2]?.getD (some 0)).getD 0
        totalrecv := i64_to_u64_or_zero ((vals[3]?.getD (some 0)).getD 0)
        totalsent := i64_to_u64_or_zero ((vals[4]?.getD (some 0)).getD 0)
        created := i64_to_u64_or_zero ((vals[5]?.getD (some 0)).getD 0)
        modified := i64_to_u64_or_zero ((vals[6]?.getD (some 0)).getD 0)
        msgs := card
        hiddenmsgs := hidden }

/-! ### `send_message` -/

/-- Result of `send_message` with the state it leaves behind. -/
structure SendOutcome where
  conf : Hash
  index : Zset
  result : Except RsmqError String

/-- `RsmqFunctions::send_message(conn, qname, message, delay)`. The payload is
the raw byte string (`Into<RedisBytes>` is identity on it); its length in
bytes is `utf8ByteSize`. The realtime `ZCARD`/`PUBLISH` tail has no effect on
the modelled queue state. A failed atomic pipeline (non-numeric `totalsent`)
is modelled as leaving the state unchanged. -/
def send_message (conf : Hash) (index : Zset) (message : String)
    (delay : Option Nat) (time : Nat × Nat) (rnd : Nat → Char)
    (realtime : Bool) : SendOutcome :=
  match get_queue conf time true rnd with
  | Except.error e => ⟨conf, index, Except.error e⟩
  | Except.ok queue =>
    let delay := get_redis_duration delay queue.delay
    match number_in_range_u64 delay 0 JS_COMPAT_MAX_TIME_MILLIS with
    | Except.error e => ⟨conf, index, Except.error e⟩
    | Except.ok _ =>
      if (message.utf8ByteSize : Int) > I64MAX then
        ⟨conf, index, Except.error RsmqError.MessageTooLong⟩
      else
        let msg_len : Int := (message.utf8ByteSize : Int)
        if queue.maxsize ≠ -1 ∧ msg_len > queue.maxsize then
          ⟨conf, index, Except.error RsmqError.MessageTooLong⟩
        else
          match queue.uid with
          | none => ⟨conf, index, Except.error RsmqError.QueueNotFound⟩
          | some queue_uid =>
            let index2 := zadd index queue_uid (queue.ts + delay)
            let conf2 := hset conf queue_uid message
            match hincrby conf2 "totalsent" 1 with
            | none => ⟨conf, index, Except.error RsmqError.RedisError⟩
            | some hi => ⟨hi.fst, index2, Except.ok queue_uid⟩

/-! ### The Lua scripts and the operations built on them -/

/-- The reply tuple `(bool, String, Vec<u8>, u64, u64)` of the two dequeue
scripts. -/
structure ScriptReply where
  found : Bool
  id : String
  bytes : String
  rc : Nat
  fr : Nat

/-- Modelled from the spec: the dequeue scripts pick "the first member of the
index with score ≤ ts (the visible message with the lowest score)", ties
broken by member-string order (src/redis-scripts is not under src/). -/
def first_visible (index : Zset) (ts : Nat) : Option (String × Nat) :=
  (index.filter (fun p => p.snd ≤ ts)).foldl
    (fun best p =>
      match best with
      | none => some p
      | some q =>
        if p.snd < q.snd ∨ (p.snd = q.snd ∧ p.fst < q.fst) then some p else some q)
    none

/-- Modelled from the spec: `receiveMessage.lua`
(src/redis-scripts/receiveMessage.lua is not under src/). Fetches the first
visible member, bumps its score to the new deadline, increments `{id}:rc` and
`totalrecv`, sets `{id}:fr := ts` on first receive, and returns
`(true, id, bytes, rc, fr)`. -/
def receiveMessageScript (conf : Hash) (index : Zset) (ts deadline : Nat) :
    ScriptReply × Hash × Zset :=
  match first_visible index ts with
  | none => (⟨false, "", "", 0, 0⟩, conf, index)
  | some pair =>
    let id := pair.fst
    let index2 := zadd index id deadline
    let rc := ((hget conf (id ++ ":rc")).bind parse_u64).getD 0 + 1
    let conf2 := hset conf (id ++ ":rc") (toString rc)
    let totalrecv := ((hget conf2 "totalrecv").bind parse_u64).getD 0 + 1
    let conf3 := hset conf2 "totalrecv" (toString totalrecv)
    let withFr :=
      if rc = 1 then (hset conf3 (id ++ ":fr") (toString ts), ts)
      else (conf3, ((hget conf3 (id ++ ":fr")).bind parse_u64).getD 0)
    let bytes := (hget withFr.fst id).getD ""
    (⟨true, id, bytes, rc, withFr.snd⟩, withFr.fst, index2)

/-- `struct RsmqMessage` with the payload type fixed to the raw byte string. -/
structure RsmqMessage where
  id : String
  message : String
  rc : Nat
  fr : Nat
  sent : Nat
  deriving Repr, DecidableEq

/-- Result of `receive_message` with the state it leaves behind. -/
structure ReceiveOutcome where
  conf : Hash
  index : Zset
  result : Except RsmqError (Option RsmqMessage)

/-- `RsmqFunctions::receive_message(conn, qname, hidden)`. `get_queue` is
called without uid, so the random oracle is irrelevant and fixed. The payload
conversion (`E = RedisBytes`-like) is the identity, so `CannotDecodeMessage`
does not arise. -/
def receive_message (conf : Hash) (index : Zset) (hidden : Option Nat)
    (time : Nat × Nat) : ReceiveOutcome :=
  match get_queue conf time false (fun _ => 'A') with
  | Except.error e => ⟨conf, index, Except.error e⟩
  | Except.ok queue =>
    let hidden := get_redis_duration hidden queue.vt
    match number_in_range_u64 hidden 0 JS_COMPAT_MAX_TIME_MILLIS with
    | Except.error e => ⟨conf, index, Except.error e⟩
    | Except.ok _ =>
      let r := receiveMessageScript conf index queue.ts (queue.ts + hidden)
      if r.fst.found = false then ⟨r.snd.fst, r.snd.snd, Except.ok none⟩
      else
        ⟨r.snd.fst, r.snd.snd, Except.ok (some {
          id := r.fst.id, message := r.fst.bytes, rc := r.fst.rc,
          fr := r.fst.fr, sent := sent_of_id r.fst.id })⟩

/-- Modelled from the spec: `changeMessageVisibility.lua`
(src/redis-scripts/changeMessageVisibility.lua is not under src/): "if the
message id is a member of the sorted-set index, update its score to the new
deadline and return 1; otherwise return 0". -/
def changeMessageVisibilityScript (index : Zset) (id : String) (deadline : Nat) :
    Zset × Bool :=
  if index.any (fun p => p.fst == id) then (zadd index id deadline, true)
  else (index, false)

/-- Result of `change_message_visibility` with the state it leaves behind. -/
structure ChangeVisibilityOutcome where
  index : Zset
  result : Except RsmqError Unit

/-- `RsmqFunctions::change_message_visibility(conn, qname, message_id, hidden)`:
normalizes `hidden`, fetches the queue, range-checks, invokes the script with
deadline `queue.ts + hidden` and discards its boolean reply. -/
def change_message_visibility (conf : Hash) (index : Zset) (message_id : String)
    (hidden : Nat) (time : Nat × Nat) : ChangeVisibilityOutcome :=
  let hidden := get_redis_duration (some hidden) 30000
  match get_queue conf time false (fun _ => 'A') with
  | Except.error e => ⟨index, Except.error e⟩
  | Except.ok queue =>
    match number_in_range_u64 hidden 0 JS_COMPAT_MAX_TIME_MILLIS with
    | Except.error e => ⟨index, Except.error e⟩
    | Except.ok _ =>
      let r := changeMessageVisibilityScript index message_id (queue.ts + hidden)
      ⟨r.fst, Except.ok ()⟩

/-! ### Helper instances and lemmas -/

instance {ε α : Type} [DecidableEq ε] [DecidableEq α] : DecidableEq (Except ε α) :=
  fun a b =>
    match a, b with
    | Except.error e, Except.error f =>
      match decEq e f with
      | isTrue h => isTrue (by rw [h])
      | isFalse h => isFalse (fun hh => h (Except.error.inj hh))
    | Except.ok x, Except.ok y =>
      match decEq x y with
      | isTrue h => isTrue (by rw [h])
      | isFalse h => isFalse (fun hh => h (Except.ok.inj hh))
    | Except.error _, Except.ok _ => isFalse (fun hh => Except.noConfusion hh)
    | Except.ok _, Except.error _ => isFalse (fun hh => Except.noConfusion hh)

/-- The source's name validator accepts every string: its guard
`is_empty && len > 160` is unsatisfiable and the character scan is discarded. -/
theorem valid_name_format_always_ok (name : String) :
    valid_name_format name = Except.ok () := by
  unfold valid_name_format
  split
  · rename_i h
    obtain ⟨h1, h2⟩ := h
    rw [String.isEmpty_iff] at h1
    subst h1
    exact absurd h2 (by decide)
  · rfl

/-- Shape of a successful `get_queue`: the timestamp is the TIME reply's
seconds times 1000 (the microseconds are dropped). -/
theorem get_queue_ok_ts (conf : Hash) (time : Nat × Nat) (uid : Bool)
    (rnd : Nat → Char) (q : QueueDescriptor)
    (h : get_queue conf time uid rnd = Except.ok q) :
    q.ts = time.fst * 1000 := by
  unfold get_queue at h
  repeat' split at h
  all_goals simp_all
  all_goals exact (congrArg QueueDescriptor.ts h).symm

/-- Shape of a successful `get_queue` with uid generation: the uid is the
base-36 of `seconds*1000` followed by 22 oracle draws. -/
theorem get_queue_ok_uid (conf : Hash) (time : Nat × Nat)
    (rnd : Nat → Char) (q : QueueDescriptor)
    (h : get_queue conf time true rnd = Except.ok q) :
    q.uid = some (radix_36 (time.fst * 1000) ++ make_id 22 rnd) := by
  unfold get_queue at h
  repeat' split at h
  all_goals simp_all
  all_goals exact (congrArg QueueDescriptor.uid h).symm

/-! ### Claims -/

/-- C1: the claim says every generated message id is 32 characters, its first
10 characters the zero-padded base-36 of the send timestamp. The code does not
pad: at TIME = (1, 0) — ts = 1000 ms, representable in two base-36 digits —
`get_queue` mints the 24-character id `"rs" ++ 22 random draws`, which does
not match `^[0-9a-z]{10}[A-Za-z0-9]{22}$`. -/
theorem c1_id_not_padded_to_32_chars :
    get_queue confEx (1, 0) true (fun _ => 'A')
        = Except.ok { vt := 30000, delay := 0, maxsize := 65536, ts := 1000,
                      uid := some "rsAAAAAAAAAAAAAAAAAAAAAA" }
    ∧ "rsAAAAAAAAAAAAAAAAAAAAAA".length = 24
    ∧ (24 : Nat) ≠ 32 := by
  exact ⟨by decide, by decide, by decide⟩

/-- C2 (amended): the `ts` carried by the `QueueDescriptor` is
`seconds * 1000`; the microseconds component of the TIME reply is ignored. -/
theorem c2_ts_is_seconds_times_1000 (conf : Hash) (secs micros : Nat)
    (uid : Bool) (rnd : Nat → Char) (q : QueueDescriptor)
    (h : get_queue conf (secs, micros) uid rnd = Except.ok q) :
    q.ts = secs * 1000 :=
  get_queue_ok_ts conf (secs, micros) uid rnd q h

/-- C2 counterexample: at TIME = (1, 999999) the claimed formula
`seconds*1000 + microseconds/1000` gives 1999, but `get_queue` reports
ts = 1000. -/
theorem c2_counterexample :
    (get_queue confEx (1, 999999) false (fun _ => 'A')).map QueueDescriptor.ts
      ≠ Except.ok (1 * 1000 + 999999 / 1000) := by
  decide

/-- C2 witness: the amended statement evaluated at TIME = (1, 999999). -/
theorem c2_witness :
    ({ vt := 30000, delay := 0, maxsize := 65536, ts := 1000,
       uid := none } : QueueDescriptor).ts = 1 * 1000 :=
  c2_ts_is_seconds_times_1000 confEx 1 999999 false (fun _ => 'A')
    { vt := 30000, delay := 0, maxsize := 65536, ts := 1000, uid := none }
    (by decide)

/-- C3: the claim says decoding the first 10 characters of a freshly minted id
as base-36 returns the ts of the TIME reply that minted it. It does not: at
TIME = (1, 0) (ts = 1000) with all random draws equal to '0', `send_message`
mints `"rs0000000000000000000000"`, and the `sent` decode reads
`"rs00000000"` = 1000·36⁸ = 2821109907456000 ≠ 1000 (the unpadded 2-digit
timestamp prefix swallows eight random characters). -/
theorem c3_sent_decode_not_ts :
    (send_message confEx [] "hello" none (1, 0) (fun _ => '0') false).result
        = Except.ok "rs0000000000000000000000"
    ∧ sent_of_id "rs0000000000000000000000" = 2821109907456000
    ∧ (2821109907456000 : Nat) ≠ 1 * 1000 := by
  exact ⟨by decide, by decide, by decide⟩

/-- C4: the claim says name validation fails with `InvalidFormat` exactly on
empty, over-long or ill-charactered names. In the code the rejection branch is
unreachable (`is_empty() && len() > 160`) and the character scan's result is
discarded, so every name — including `""`, a 161-character name and names with
forbidden characters — is accepted. -/
theorem c4_name_validation_never_rejects (name : String) :
    valid_name_format name = Except.ok () :=
  valid_name_format_always_ok name

/-- Membership in `sadd`. -/
theorem mem_sadd_self (s : List String) (x : String) : x ∈ sadd s x := by
  unfold sadd
  split
  · rename_i h
    simpa using h
  · simp

/-- `any (key == f)` agrees with `hget` presence. -/
theorem any_key_iff_hget_isSome (h : Hash) (f : String) :
    h.any (fun p => p.fst == f) = true ↔ (hget h f).isSome = true := by
  simp [hget, List.any_eq_true, List.find?_isSome]

/-- Filtering out another field does not change a field's presence. -/
theorem any_key_filter_ne (h : Hash) (g f : String) (hfg : f ≠ g) :
    ((h.filter (fun p => p.fst != g)).any (fun p => p.fst == f) = true)
      ↔ (h.any (fun p => p.fst == f) = true) := by
  simp only [List.any_eq_true, List.mem_filter]
  constructor
  · rintro ⟨x, ⟨hx, _⟩, hq⟩
    exact ⟨x, hx, hq⟩
  · rintro ⟨x, hx, hq⟩
    have hxf : x.fst = f := by simpa using hq
    refine ⟨x, ⟨hx, ?_⟩, hq⟩
    simp [hxf, bne, hfg]

/-- The `HDEL` reply over three pairwise-distinct fields is positive exactly
when at least one of the fields is present. -/
theorem hdel_three_pos_iff (h : Hash) (f1 f2 f3 : String)
    (h12 : f2 ≠ f1) (h13 : f3 ≠ f1) (h23 : f3 ≠ f2) :
    0 < (hdel h [f1, f2, f3]).snd
      ↔ ((hget h f1).isSome = true ∨ (hget h f2).isSome = true
          ∨ (hget h f3).isSome = true) := by
  have e1 := any_key_iff_hget_isSome h f1
  have e2 : ((h.filter (fun p => p.fst != f1)).any (fun p => p.fst == f2) = true)
      ↔ (hget h f2).isSome = true :=
    (any_key_filter_ne h f1 f2 h12).trans (any_key_iff_hget_isSome h f2)
  have e3 : (((h.filter (fun p => p.fst != f1)).filter
        (fun p => p.fst != f2)).any (fun p => p.fst == f3) = true)
      ↔ (hget h f3).isSome = true :=
    (any_key_filter_ne _ f2 f3 h23).trans
      ((any_key_filter_ne h f1 f3 h13).trans (any_key_iff_hget_isSome h f3))
  simp only [hdel]
  rw [← e1, ← e2, ← e3]
  rcases hb1 : (h.filter (fun p => p.fst != f1)).any (fun p => p.fst == f2) <;>
    rcases hb2 : ((h.filter (fun p => p.fst != f1)).filter
        (fun p => p.fst != f2)).any (fun p => p.fst == f3) <;>
    rcases hb3 : h.any (fun p => p.fst == f1) <;>
    simp only [hb1, hb2, hb3] <;> decide

/-- The `ZREM` reply is 1 exactly when the member is in the (duplicate-free)
sorted set. -/
theorem zrem_reply_one_iff (index : Zset) (id : String)
    (hnodup : (index.map Prod.fst).Nodup) :
    (zrem index id).snd = 1 ↔ id ∈ index.map Prod.fst := by
  have hcount : (zrem index id).snd = (index.map Prod.fst).count id := by
    unfold zrem
    rw [List.count, List.countP_map]
    rfl
  rw [hcount]
  have hle := List.nodup_iff_count_le_one.mp hnodup id
  have hpos := List.count_pos_iff (a := id) (l := index.map Prod.fst)
  constructor
  · intro h1
    exact hpos.mp (by omega)
  · intro hmem
    have := hpos.mpr hmem
    omega

/-- C5: the claim says `get_queue_attributes` issues ZCOUNT with lower bound
`now_ms`, so that `hiddenmsgs` counts exactly the hidden-or-delayed messages.
The code passes `time.0` (seconds): with one message whose deadline 1500 ms is
already past at server time 2 s (now_ms = 2000), the code reports
`hiddenmsgs = 1` although no index entry has score ≥ 2000 — the visible
message is counted as hidden. -/
theorem c5_hiddenmsgs_bound_is_seconds :
    (get_queue_attributes confEx7 [("m1", 1500)] (2, 0)).map
        RsmqQueueAttributes.hiddenmsgs = Except.ok 1
    ∧ zcount_ge [("m1", 1500)] (2 * 1000) = 0 := by
  exact ⟨by decide, by decide⟩

/-- C6: when the first `HSETNX` (the `vt` field) of `create_queue` replies 0,
the call fails with `QueueExists` and leaves the `{NS}QUEUES` registry
untouched; when it replies 1, the call succeeds and adds the queue name to the
registry. -/
theorem c6_create_queue_first_hsetnx_decides (conf : Hash) (registry : List String)
    (qname : String) (hidden delay : Option Nat) (maxsize : Option Int)
    (time : Nat × Nat)
    (hh : number_in_range_u64 (get_redis_duration hidden 30000) 0
        JS_COMPAT_MAX_TIME_MILLIS = Except.ok ())
    (hd : number_in_range_u64 (get_redis_duration delay 0) 0
        JS_COMPAT_MAX_TIME_MILLIS = Except.ok ())
    (hm : check_maxsize (maxsize.getD 65536) = Except.ok ()) :
    ((hsetnx conf "vt" (toString (get_redis_duration hidden 30000))).snd = false →
        (create_queue conf registry qname hidden delay maxsize time).result
          = Except.error RsmqError.QueueExists
        ∧ (create_queue conf registry qname hidden delay maxsize time).registry
            = registry)
    ∧ ((hsetnx conf "vt" (toString (get_redis_duration hidden 30000))).snd = true →
        (create_queue conf registry qname hidden delay maxsize time).result
          = Except.ok ()
        ∧ (create_queue conf registry qname hidden delay maxsize time).registry
            = sadd registry qname
        ∧ qname ∈ (create_queue conf registry qname hidden delay maxsize time).registry) := by
  have hname := valid_name_format_always_ok qname
  constructor
  · intro hfalse
    simp only [create_queue, hname, hh, hd, hm, hfalse]
    exact ⟨rfl, rfl⟩
  · intro htrue
    simp only [create_queue, hname, hh, hd, hm, htrue]
    exact ⟨rfl, rfl, mem_sadd_self registry qname⟩

/-- C6 witness: with the default arguments, creating over an existing `vt`
field fails with `QueueExists` and an untouched registry, and creating on an
empty hash succeeds and registers the name. -/
theorem c6_witness :
    ((hsetnx confEx "vt" (toString (get_redis_duration none 30000))).snd = false →
        (create_queue confEx [] "q1" none none none (5, 0)).result
          = Except.error RsmqError.QueueExists
        ∧ (create_queue confEx [] "q1" none none none (5, 0)).registry = [])
    ∧ ((hsetnx confEx "vt" (toString (get_redis_duration none 30000))).snd = true →
        (create_queue confEx [] "q1" none none none (5, 0)).result = Except.ok ()
        ∧ (create_queue confEx [] "q1" none none none (5, 0)).registry = sadd [] "q1"
        ∧ "q1" ∈ (create_queue confEx [] "q1" none none none (5, 0)).registry) :=
  c6_create_queue_first_hsetnx_decides confEx [] "q1" none none none (5, 0)
    (by decide) (by decide) (by decide)

/-- C7: `delete_message` returns true exactly when the id was a member of the
index (so its `ZREM` replied 1) and at least one of the hash fields `id`,
`id:rc`, `id:fr` existed (so its `HDEL` replied > 0); in every other case —
including an id present only as `:rc`/`:fr` fields — it returns false. -/
theorem c7_delete_message_true_iff (conf : Hash) (index : Zset) (id : String)
    (hnodup : (index.map Prod.fst).Nodup) :
    (delete_message conf index id).snd.snd = true
      ↔ (id ∈ index.map Prod.fst
          ∧ ((hget conf id).isSome = true ∨ (hget conf (id ++ ":rc")).isSome = true
              ∨ (hget conf (id ++ ":fr")).isSome = true)) := by
  have h12 : id ++ ":rc" ≠ id := by
    intro hcontra
    have hlen := congrArg String.length hcontra
    simp [String.length_append] at hlen
    exact absurd hlen (by decide)
  have h13 : id ++ ":fr" ≠ id := by
    intro hcontra
    have hlen := congrArg String.length hcontra
    simp [String.length_append] at hlen
    exact absurd hlen (by decide)
  have h23 : id ++ ":fr" ≠ id ++ ":rc" := by
    intro hcontra
    have hdata := congrArg String.data hcontra
    simp [String.data_append] at hdata
  unfold delete_message
  simp only [Bool.and_eq_true, beq_iff_eq, decide_eq_true_eq, gt_iff_lt]
  rw [zrem_reply_one_iff index id hnodup,
    hdel_three_pos_iff conf id (id ++ ":rc") (id ++ ":fr") h12 h13 h23]

/-- C7 witness: an id that is in the index and has its payload field present
is reported deleted; the iff instantiated at a concrete state. -/
theorem c7_witness :
    (delete_message [("m1", "hello"), ("m1:rc", "1")] [("m1", 1500)] "m1").snd.snd = true
      ↔ ("m1" ∈ ([("m1", 1500)] : Zset).map Prod.fst
          ∧ ((hget [("m1", "hello"), ("m1:rc", "1")] "m1").isSome = true
              ∨ (hget [("m1", "hello"), ("m1:rc", "1")] ("m1" ++ ":rc")).isSome = true
              ∨ (hget [("m1", "hello"), ("m1:rc", "1")] ("m1" ++ ":fr")).isSome = true)) :=
  c7_delete_message_true_iff [("m1", "hello"), ("m1:rc", "1")] [("m1", 1500)] "m1"
    (by decide)

/-- The queue descriptor `get_queue` returns for `confEx` at TIME = (1, 0)
with uid generation and the constant oracle 'A'. -/
def qExSend : QueueDescriptor :=
  { vt := 30000, delay := 0, maxsize := 65536, ts := 1000,
    uid := some "rsAAAAAAAAAAAAAAAAAAAAAA" }

/-- C8: on a queue with configured maxsize `m`, `send_message` fails with
`MessageTooLong` exactly when `m ≠ -1` and the payload's byte length exceeds
`m`; with `m = -1`, or a payload of exactly `m` bytes, no `MessageTooLong` is
raised. (The hypothesis `hlen` reflects that a Rust byte vector can never
exceed `isize::MAX` bytes, so the `try_into` guard cannot fire.) -/
theorem c8_send_message_too_long_iff (conf : Hash) (index : Zset)
    (message : String) (delay : Option Nat) (time : Nat × Nat)
    (rnd : Nat → Char) (realtime : Bool) (q : QueueDescriptor)
    (hq : get_queue conf time true rnd = Except.ok q)
    (hdelay : number_in_range_u64 (get_redis_duration delay q.delay) 0
        JS_COMPAT_MAX_TIME_MILLIS = Except.ok ())
    (hlen : (message.utf8ByteSize : Int) ≤ I64MAX) :
    ((send_message conf index message delay time rnd realtime).result
        = Except.error RsmqError.MessageTooLong
      ↔ (q.maxsize ≠ -1 ∧ (message.utf8ByteSize : Int) > q.maxsize)) := by
  have huid := get_queue_ok_uid conf time rnd q hq
  unfold send_message
  simp only [hq, hdelay]
  rw [if_neg (not_lt.mpr hlen)]
  split
  · rename_i hcond
    exact iff_of_true rfl hcond
  · rename_i hcond
    simp only [huid]
    rcases hno : hincrby (hset conf (radix_36 (time.fst * 1000) ++ make_id 22 rnd) message)
        "totalsent" 1 with _ | hi <;> simp only [hno]
    · exact iff_of_false (by simp) hcond
    · exact iff_of_false (by simp) hcond

/-- C8 witness: the iff instantiated on the default queue with a 5-byte
payload (maxsize 65536): no `MessageTooLong` on either side. -/
theorem c8_witness :
    ((send_message confEx [] "hello" none (1, 0) (fun _ => 'A') false).result
        = Except.error RsmqError.MessageTooLong
      ↔ (qExSend.maxsize ≠ -1 ∧ (("hello" : String).utf8ByteSize : Int) > qExSend.maxsize)) :=
  c8_send_message_too_long_iff confEx [] "hello" none (1, 0) (fun _ => 'A') false
    qExSend (by decide) (by decide) (by decide)

/-- C9: on an existing queue with an in-range hidden duration,
`change_message_visibility` returns success for every index state — the
script's boolean "member existed" reply is discarded, so a non-existent
message id does not produce an error. -/
theorem c9_change_visibility_always_ok (conf : Hash) (index : Zset)
    (message_id : String) (hidden : Nat) (time : Nat × Nat)
    (q : QueueDescriptor)
    (hq : get_queue conf time false (fun _ => 'A') = Except.ok q)
    (hrange : number_in_range_u64 (get_redis_duration (some hidden) 30000) 0
        JS_COMPAT_MAX_TIME_MILLIS = Except.ok ()) :
    (change_message_visibility conf index message_id hidden time).result
      = Except.ok () := by
  unfold change_message_visibility
  simp only [hq, hrange]

/-- C9 witness: changing visibility of the id "nope", which is not in the
(empty) index, still succeeds. -/
theorem c9_witness :
    (change_message_visibility confEx [] "nope" 5000 (1, 0)).result
      = Except.ok () :=
  c9_change_visibility_always_ok confEx [] "nope" 5000 (1, 0)
    { vt := 30000, delay := 0, maxsize := 65536, ts := 1000, uid := none }
    (by decide) (by decide)

/-- A duration whose millisecond count does not fit `u64` is normalized to
the same value as an absent duration. -/
theorem get_redis_duration_overflow (d dflt : Nat) (hd : U64MAX < d) :
    get_redis_duration (some d) dflt = get_redis_duration none dflt := by
  unfold get_redis_duration u64_try_from
  simp [Nat.not_le.mpr hd]

/-- C10: a `delay`/`hidden` argument of at least 2⁶⁴ ms is silently replaced
by the call-site default rather than rejected with `InvalidValue`:
`get_redis_duration` maps it to exactly what it returns for `none`, and the
whole `send_message` / `receive_message` calls — including their subsequent
range check, which therefore applies to the substituted default — behave
identically to the calls without the argument. -/
theorem c10_overflow_duration_uses_default (d : Nat) (hd : U64MAX < d)
    (dflt : Nat) (conf : Hash) (index : Zset) (message : String)
    (time : Nat × Nat) (rnd : Nat → Char) (realtime : Bool) :
    get_redis_duration (some d) dflt = get_redis_duration none dflt
    ∧ send_message conf index message (some d) time rnd realtime
        = send_message conf index message none time rnd realtime
    ∧ receive_message conf index (some d) time
        = receive_message conf index none time := by
  have key : ∀ x : Nat, get_redis_duration (some d) x = get_redis_duration none x :=
    fun x => get_redis_duration_overflow d x hd
  refine ⟨key dflt, ?_, ?_⟩
  · unfold send_message
    simp only [key]
  · unfold receive_message
    simp only [key]

/-- C10 witness: a 2⁶⁴-ms delay behaves exactly like no delay argument. -/
theorem c10_witness :
    get_redis_duration (some (2 ^ 64)) 30000 = get_redis_duration none 30000
    ∧ send_message confEx [] "hello" (some (2 ^ 64)) (1, 0) (fun _ => 'A') false
        = send_message confEx [] "hello" none (1, 0) (fun _ => 'A') false
    ∧ receive_message confEx [] (some (2 ^ 64)) (1, 0)
        = receive_message confEx [] none (1, 0) :=
  c10_overflow_duration_uses_default (2 ^ 64) (by decide) 30000 confEx []
    "hello" (1, 0) (fun _ => 'A') false

end Rsmq
